import Mathlib

/-!
Shallow embedding of src/fastdfs-5.01/common/ioevent.c: a readiness
notification multiplexer over three kernel backends (epoll, kqueue,
event ports).  Pure C functions become Lean functions; each kernel
syscall is modelled by its documented contract, with its outcome (or the
kernel-side interest table) passed in explicitly.
-/

namespace IOEvent

/-- errno values used by ioevent.c (from errno.h). -/
def ENOMEM : Nat := 12

def EINTR : Nat := 4

def EAGAIN : Nat := 11

def ETIME : Nat := 62

/-- Modelled from the spec: the header ioevent.h is not in src/.  It defines
the canonical readiness bits (READABLE, WRITABLE, HUNG_UP in the spec) as
distinct one-bit masks, named KPOLLIN / KPOLLOUT / KPOLLHUP on the kqueue
build, with IOEVENT_READ / IOEVENT_WRITE aliased to the two directions. -/
def KPOLLIN : Nat := 1

def KPOLLOUT : Nat := 4

def KPOLLHUP : Nat := 16

def IOEVENT_READ : Nat := KPOLLIN

def IOEVENT_WRITE : Nat := KPOLLOUT

/-- kqueue constants from sys/event.h: the two filters are negative small
integers, EV_ADD and EV_DELETE are action flags, EV_EOF is the kernel-set
side flag reporting peer close. -/
def EVFILT_READ : Int := -1

def EVFILT_WRITE : Int := -2

def EV_ADD : Nat := 1

def EV_DELETE : Nat := 2

def EV_EOF : Nat := 32768

/-- struct epoll_event: an interest/ready record with an event bitmask and
the caller's user-data pointer (modelled as a Nat identifier). -/
structure EpollEvent where
  events : Nat
  dataPtr : Nat
  deriving DecidableEq

/-- struct kevent, as filled by EV_SET(fd, filter, flags, fflags, data, udata). -/
structure Kevent where
  ident : Int
  filter : Int
  flags : Nat
  fflags : Nat
  data : Int
  udata : Nat
  deriving DecidableEq

/-- IOEventPoller: size (capacity), extra_events merged into every
registration, timeout, the backend handle poll_fd, and the ready-event
buffer (none models a NULL events pointer). -/
structure IOEventPoller where
  size : Nat
  extra_events : Nat
  timeout : Int
  poll_fd : Int
  events : Option (List EpollEvent)
  deriving DecidableEq

/-- kqueue_ev_convert: maps a kevent filter to the canonical readiness bit
and folds the EV_EOF flag into KPOLLHUP. -/
def kqueue_ev_convert (event : Int) (flags : Nat) : Nat :=
  let r : Nat :=
    if event = EVFILT_READ then KPOLLIN
    else if event = EVFILT_WRITE then KPOLLOUT
    else 0
  if flags &&& EV_EOF ≠ 0 then r ||| KPOLLHUP else r

/-- ioevent_init (epoll build).  epoll_fd_result is the value returned by
epoll_create and malloc_ok whether the malloc of the events buffer
succeeded; errno is the C errno at the NULL check.  The code stores both
results unchecked and only tests the buffer for NULL: on buffer failure it
returns errno (or ENOMEM when errno is 0) without closing poll_fd. -/
def ioevent_init (epoll_fd_result : Int) (malloc_ok : Bool) (errno : Nat)
    (size : Nat) (timeout : Int) (extra_events : Nat) : IOEventPoller × Int :=
  let ioevent : IOEventPoller :=
    { size := size
      extra_events := extra_events
      timeout := timeout
      poll_fd := epoll_fd_result
      events := if malloc_ok then some (List.replicate size ⟨0, 0⟩) else none }
  if malloc_ok then (ioevent, 0)
  else (ioevent, if errno ≠ 0 then (errno : Int) else (ENOMEM : Int))

/-- The two resource-releasing calls ioevent_destroy can make. -/
inductive DestroyAction where
  | free : DestroyAction
  | close : Int → DestroyAction
  deriving DecidableEq

/-- ioevent_destroy: frees the events buffer when non-NULL and nulls the
field, then closes poll_fd when it is ≥ 0 and sets it to -1.  Returns the
updated poller and the release actions performed. -/
def ioevent_destroy (ioevent : IOEventPoller) : IOEventPoller × List DestroyAction :=
  let step1 : IOEventPoller × List DestroyAction :=
    if ioevent.events.isSome then ({ ioevent with events := none }, [.free])
    else (ioevent, [])
  let p1 := step1.1
  let step2 : IOEventPoller × List DestroyAction :=
    if p1.poll_fd ≥ 0 then ({ p1 with poll_fd := -1 }, [.close p1.poll_fd])
    else (p1, [])
  (step2.1, step1.2 ++ step2.2)

/-- epoll_ctl(2) operations. -/
inductive EpollOp where
  | add : EpollOp
  | mod : EpollOp
  | del : EpollOp
  deriving DecidableEq

/-- epoll_ctl(2) contract over the kernel-side interest table of one epoll
instance (an fd → record association list): ADD inserts a new record and
fails on a present fd, MOD replaces the record of a present fd, DEL removes
it; MOD and DEL fail on an absent fd. -/
def epoll_ctl (st : List (Int × EpollEvent)) (op : EpollOp) (fd : Int)
    (ev : EpollEvent) : List (Int × EpollEvent) × Int :=
  match op with
  | .add => if (st.lookup fd).isSome then (st, -1) else ((fd, ev) :: st, 0)
  | .mod =>
      if (st.lookup fd).isSome then
        (st.map fun q => if q.1 = fd then (fd, ev) else q, 0)
      else (st, -1)
  | .del =>
      if (st.lookup fd).isSome then (st.filter fun q => q.1 ≠ fd, 0)
      else (st, -1)

/-- ioevent_attach (epoll build): builds an epoll_event with the caller
mask OR-ed with the poller's extra_events and submits it with
EPOLL_CTL_ADD.  Returns the submitted record and the epoll_ctl outcome. -/
def ioevent_attach_epoll (st : List (Int × EpollEvent)) (ioevent : IOEventPoller)
    (fd : Int) (e : Nat) (data : Nat) :
    EpollEvent × (List (Int × EpollEvent) × Int) :=
  let ev : EpollEvent := ⟨e ||| ioevent.extra_events, data⟩
  (ev, epoll_ctl st .add fd ev)

/-- ioevent_modify (epoll build): same record construction, submitted with
EPOLL_CTL_MOD. -/
def ioevent_modify_epoll (st : List (Int × EpollEvent)) (ioevent : IOEventPoller)
    (fd : Int) (e : Nat) (data : Nat) :
    EpollEvent × (List (Int × EpollEvent) × Int) :=
  let ev : EpollEvent := ⟨e ||| ioevent.extra_events, data⟩
  (ev, epoll_ctl st .mod fd ev)

/-- kevent(2) as called with nevents = 0 by attach/modify: the kernel
processes each change in order; kernelErr gives the per-change error, if
any.  With no room in an event list to report per-change failures the call
returns -1 when some change fails, 0 when every change (vacuously, when the
change list is empty) is accepted. -/
def kevent_submit (kernelErr : Kevent → Option Nat) (changes : List Kevent) : Int :=
  if changes.all fun c => (kernelErr c).isNone then 0 else -1

/-- ioevent_attach (kqueue build): one EV_ADD entry per direction present
in the mask, flags OR-ed with extra_events, submitted in one kevent call.
Returns the change list and the kevent outcome. -/
def ioevent_attach_kqueue (kernelErr : Kevent → Option Nat)
    (ioevent : IOEventPoller) (fd : Int) (e : Nat) (data : Nat) :
    List Kevent × Int :=
  let changes : List Kevent :=
    (if e &&& IOEVENT_READ ≠ 0 then
      [⟨fd, EVFILT_READ, EV_ADD ||| ioevent.extra_events, 0, 0, data⟩] else [])
    ++ (if e &&& IOEVENT_WRITE ≠ 0 then
      [⟨fd, EVFILT_WRITE, EV_ADD ||| ioevent.extra_events, 0, 0, data⟩] else [])
  (changes, kevent_submit kernelErr changes)

/-- ioevent_modify (kqueue build): always two entries, one per direction;
EV_ADD (OR-ed with extra_events) when the direction is in the mask, a bare
EV_DELETE entry when it is not, submitted in one kevent call. -/
def ioevent_modify_kqueue (kernelErr : Kevent → Option Nat)
    (ioevent : IOEventPoller) (fd : Int) (e : Nat) (data : Nat) :
    List Kevent × Int :=
  let readEntry : Kevent :=
    if e &&& IOEVENT_READ ≠ 0 then
      ⟨fd, EVFILT_READ, EV_ADD ||| ioevent.extra_events, 0, 0, data⟩
    else ⟨fd, EVFILT_READ, EV_DELETE, 0, 0, data⟩
  let writeEntry : Kevent :=
    if e &&& IOEVENT_WRITE ≠ 0 then
      ⟨fd, EVFILT_WRITE, EV_ADD ||| ioevent.extra_events, 0, 0, data⟩
    else ⟨fd, EVFILT_WRITE, EV_DELETE, 0, 0, data⟩
  ([readEntry, writeEntry], kevent_submit kernelErr [readEntry, writeEntry])

/-- epoll_wait(2) contract: the kernel either fails — e.g. interruption by
a signal before any event was obtained, errno EINTR — returning -1 with an
errno and leaving the caller's buffer alone, or retrieves a ready batch
and stores at most maxevents of its records into the buffer (slots beyond
the stored count untouched), returning the stored count.  Which of the
two, and the batch itself, is the kernel's choice; the model takes it as
the outcome argument. -/
def epoll_wait (outcome : Except Nat (List EpollEvent))
    (buf : List EpollEvent) (maxevents : Nat) : List EpollEvent × Int :=
  match outcome with
  | .error _ => (buf, -1)
  | .ok pending =>
      let stored := pending.take maxevents
      (stored ++ buf.drop stored.length, (stored.length : Int))

/-- ioevent_poll (epoll build): one epoll_wait call on the poller's buffer
with the poller's stored size and timeout; the kernel result — the stored
count, or the raw -1 on failure, whatever the errno — is returned
unchanged, and the buffer is never reallocated.  A NULL buffer faults
(modelled as the call failing with -1). -/
def ioevent_poll_epoll (ioevent : IOEventPoller)
    (outcome : Except Nat (List EpollEvent)) : IOEventPoller × Int :=
  match ioevent.events with
  | none => (ioevent, -1)
  | some buf =>
      let r := epoll_wait outcome buf ioevent.size
      ({ ioevent with events := some r.1 }, r.2)

/-- ioevent_poll (kqueue build): one kevent(2) call submitting no changes
and retrieving at most size events into the poller's kevent buffer, with
the stored timeout.  On this build the poller's events buffer holds
struct kevent records; the model passes that buffer explicitly.  The
kernel result — stored count, or the raw -1 on failure — is returned
unchanged. -/
def ioevent_poll_kqueue (ioevent : IOEventPoller) (kbuf : List Kevent)
    (outcome : Except Nat (List Kevent)) : List Kevent × Int :=
  match outcome with
  | .error _ => (kbuf, -1)
  | .ok pending =>
      let stored := pending.take ioevent.size
      (stored ++ kbuf.drop stored.length, (stored.length : Int))

/-- port_event_t: a ready record of the event-port backend. -/
structure PortEvent where
  portev_events : Nat
  portev_user : Nat
  deriving DecidableEq

/-- ioevent_poll (port build): port_getn returned retval, set errno, and
retrieved nget events.  On nonzero retval the code absorbs EINTR, EAGAIN
and ETIME — returning nget when nget > 0, else 0 — and returns -1 for any
other errno. -/
def ioevent_poll_port (retval : Int) (errno : Nat) (nget : Nat) : Int :=
  if retval = 0 then (nget : Int)
  else if errno = EINTR ∨ errno = EAGAIN ∨ errno = ETIME then
    (if nget > 0 then (nget : Int) else 0)
  else -1

/-- ioevent_poll (port build) including the buffer effect: port_getn
stores the retrieved batch got (nget = got.length; at most size records
per the port_getn contract, taken as a hypothesis where needed) into the
poller's buffer, and the return value is computed from retval and errno
exactly as in ioevent_poll_port. -/
def ioevent_poll_port_fill (retval : Int) (errno : Nat)
    (got : List PortEvent) (pbuf : List PortEvent) : List PortEvent × Int :=
  (got ++ pbuf.drop got.length, ioevent_poll_port retval errno got.length)

/-! Helper lemmas on single-bit masks and association-list lookup. -/

theorem and_two_pow_eq (x n : Nat) :
    x &&& 2 ^ n = if x.testBit n then 2 ^ n else 0 := by
  apply Nat.eq_of_testBit_eq
  intro i
  rcases eq_or_ne n i with hi | hi
  · subst hi
    by_cases h : x.testBit n <;>
      simp [Nat.testBit_and, h, Nat.testBit_two_pow_self, Nat.zero_testBit]
  · by_cases h : x.testBit n <;>
      simp [Nat.testBit_and, h, Nat.testBit_two_pow, hi, Nat.zero_testBit]

theorem or_one_and_one (x : Nat) : (1 ||| x) &&& 1 = 1 := by
  rw [show (1 : Nat) = 2 ^ 0 from rfl, and_two_pow_eq]
  simp [Nat.testBit_or, Nat.testBit_two_pow_self]

theorem or_one_and_two (x : Nat) (h : x &&& 2 = 0) : (1 ||| x) &&& 2 = 0 := by
  rw [Nat.and_distrib_right]
  rw [show (x &&& 2 : Nat) = 0 from h]
  decide

theorem lookup_map_replace_ne (st : List (Int × EpollEvent)) (fd g : Int)
    (ev : EpollEvent) (h : g ≠ fd) :
    (st.map fun q => if q.1 = fd then (fd, ev) else q).lookup g = st.lookup g := by
  induction st with
  | nil => rfl
  | cons a tl ih =>
    obtain ⟨k, v⟩ := a
    by_cases ha : k = fd
    · subst ha
      rw [List.map_cons, if_pos rfl, List.lookup_cons, List.lookup_cons,
        beq_false_of_ne h]
      exact ih
    · rw [List.map_cons, if_neg ha, List.lookup_cons, List.lookup_cons]
      cases hgk : g == k
      · exact ih
      · rfl

theorem lookup_map_replace_self (st : List (Int × EpollEvent)) (fd : Int)
    (ev : EpollEvent) (h : (st.lookup fd).isSome) :
    (st.map fun q => if q.1 = fd then (fd, ev) else q).lookup fd = some ev := by
  induction st with
  | nil => simp at h
  | cons a tl ih =>
    obtain ⟨k, v⟩ := a
    by_cases ha : k = fd
    · subst ha
      rw [List.map_cons, if_pos rfl, List.lookup_cons, beq_self_eq_true]
    · rw [List.lookup_cons, beq_false_of_ne (Ne.symm ha)] at h
      rw [List.map_cons, if_neg ha, List.lookup_cons, beq_false_of_ne (Ne.symm ha)]
      exact ih h

/-! Claims. -/

/-- C6: kqueue_ev_convert maps EVFILT_READ to the canonical readable bit
KPOLLIN and EVFILT_WRITE to the canonical writable bit KPOLLOUT, and for
every record — whichever filter it carries — the canonical KPOLLHUP bit is
set in the decoded mask exactly when the EV_EOF side flag is set. -/
theorem kqueue_ev_convert_canonical (event : Int) (flags : Nat) :
    kqueue_ev_convert EVFILT_READ flags &&& KPOLLIN ≠ 0
    ∧ kqueue_ev_convert EVFILT_WRITE flags &&& KPOLLOUT ≠ 0
    ∧ (kqueue_ev_convert event flags &&& KPOLLHUP ≠ 0 ↔ flags &&& EV_EOF ≠ 0) := by
  refine ⟨?_, ?_, ?_⟩
  · by_cases heof : flags &&& EV_EOF ≠ 0 <;>
      simp [kqueue_ev_convert, heof, EVFILT_READ, EVFILT_WRITE, KPOLLIN,
        KPOLLOUT, KPOLLHUP]
  · by_cases heof : flags &&& EV_EOF ≠ 0 <;>
      simp [kqueue_ev_convert, heof, EVFILT_READ, EVFILT_WRITE, KPOLLIN,
        KPOLLOUT, KPOLLHUP]
  · by_cases h1 : event = (-1 : Int) <;> by_cases h2 : event = (-2 : Int) <;>
      by_cases heof : flags &&& EV_EOF ≠ 0 <;>
      simp_all [kqueue_ev_convert, EVFILT_READ, EVFILT_WRITE,
        KPOLLIN, KPOLLOUT, KPOLLHUP] <;>
      decide

/-- C1: code-bug evidence.  With the backend handle already created
(epoll_create returned descriptor 5) and the subsequent buffer malloc
failing with errno ENOMEM, ioevent_init returns the error but leaves
poll_fd = 5: the handle is neither closed nor reset to a sentinel, so the
descriptor is leaked. -/
theorem ioevent_init_buffer_failure_leaves_handle_open :
    (ioevent_init 5 false ENOMEM 64 1000 0).2 = (ENOMEM : Int)
    ∧ (ioevent_init 5 false ENOMEM 64 1000 0).1.poll_fd = 5
    ∧ 0 ≤ (ioevent_init 5 false ENOMEM 64 1000 0).1.poll_fd := by
  refine ⟨rfl, rfl, by decide⟩

/-- C2: code-bug evidence.  When epoll_create fails (returns -1) but the
buffer malloc succeeds, ioevent_init returns 0 (success) with
poll_fd = -1: handle-creation failure is never checked, so initialize can
report success while holding an invalid handle. -/
theorem ioevent_init_handle_failure_reports_success :
    (ioevent_init (-1) true 0 64 1000 0).2 = 0
    ∧ (ioevent_init (-1) true 0 64 1000 0).1.poll_fd = -1 := by
  exact ⟨rfl, rfl⟩

/-- C10: on the kqueue build, attach with a mask containing neither
IOEVENT_READ nor IOEVENT_WRITE builds an empty change list and the kevent
call succeeds with 0, registering nothing. -/
theorem ioevent_attach_kqueue_empty_mask (kernelErr : Kevent → Option Nat)
    (ioevent : IOEventPoller) (fd : Int) (e : Nat) (data : Nat)
    (hr : e &&& IOEVENT_READ = 0) (hw : e &&& IOEVENT_WRITE = 0) :
    ioevent_attach_kqueue kernelErr ioevent fd e data = ([], 0) := by
  unfold ioevent_attach_kqueue kevent_submit
  simp [hr, hw]

/-- Witness for C10 at a concrete input: a mask holding only the KPOLLHUP
bit requests neither direction, and attach submits nothing. -/
theorem ioevent_attach_kqueue_empty_mask_check :
    ioevent_attach_kqueue (fun _ => some 9) ⟨64, 0, 1000, 3, none⟩ 7 KPOLLHUP 42
      = ([], 0) :=
  ioevent_attach_kqueue_empty_mask _ _ _ _ _ (by decide) (by decide)

/-- C9: ioevent_destroy leaves the buffer field none and the handle
negative, frees the buffer and closes the handle when they were live, and
a second ioevent_destroy on the result changes nothing and performs no
release action. -/
theorem ioevent_destroy_teardown (ioevent : IOEventPoller) :
    (ioevent_destroy ioevent).1.events = none
    ∧ (ioevent_destroy ioevent).1.poll_fd < 0
    ∧ (ioevent.events.isSome → DestroyAction.free ∈ (ioevent_destroy ioevent).2)
    ∧ (0 ≤ ioevent.poll_fd →
        DestroyAction.close ioevent.poll_fd ∈ (ioevent_destroy ioevent).2)
    ∧ ioevent_destroy (ioevent_destroy ioevent).1 = ((ioevent_destroy ioevent).1, []) := by
  obtain ⟨size, extra, tmo, fd, evs⟩ := ioevent
  by_cases hfd : (0 : Int) ≤ fd <;> cases evs <;>
    simp [ioevent_destroy, hfd, ge_iff_le] <;> omega

/-- Witness for C9 at a concrete input: a live poller is torn down, both
release actions happen, and tearing down the result is a no-op. -/
theorem ioevent_destroy_teardown_check :
    DestroyAction.free ∈ (ioevent_destroy ⟨64, 0, 1000, 3, some []⟩).2
    ∧ DestroyAction.close 3 ∈ (ioevent_destroy ⟨64, 0, 1000, 3, some []⟩).2 :=
  ⟨(ioevent_destroy_teardown ⟨64, 0, 1000, 3, some []⟩).2.2.1 (by decide),
    (ioevent_destroy_teardown ⟨64, 0, 1000, 3, some []⟩).2.2.2.1 (by decide)⟩

/-- C7: on every backend, a successful wait returns a ready count bounded
by the configured size and fills at most that many leading slots of the
buffer allocated at initialization, whose length never changes.  epoll:
over every kernel outcome, on a poller whose buffer holds size entries;
kqueue: over every kernel outcome, on a kevent buffer of size entries;
port: over every port_getn outcome, with the retrieved batch bounded by
size as the port_getn contract states (hypothesis hgot). -/
theorem ioevent_poll_capacity_bound (ioevent : IOEventPoller)
    (buf : List EpollEvent) (outcome : Except Nat (List EpollEvent))
    (kbuf : List Kevent) (koutcome : Except Nat (List Kevent))
    (retval : Int) (errno : Nat) (got pbuf : List PortEvent)
    (hb : ioevent.events = some buf) (hlen : buf.length = ioevent.size)
    (hklen : kbuf.length = ioevent.size)
    (hgot : got.length ≤ ioevent.size) (hplen : pbuf.length = ioevent.size) :
    ((ioevent_poll_epoll ioevent outcome).1.size = ioevent.size
      ∧ ∃ buf2, (ioevent_poll_epoll ioevent outcome).1.events = some buf2
        ∧ buf2.length = buf.length
        ∧ (0 ≤ (ioevent_poll_epoll ioevent outcome).2 →
            (ioevent_poll_epoll ioevent outcome).2 ≤ (ioevent.size : Int)
            ∧ buf2.drop (ioevent_poll_epoll ioevent outcome).2.toNat
              = buf.drop (ioevent_poll_epoll ioevent outcome).2.toNat))
    ∧ ((ioevent_poll_kqueue ioevent kbuf koutcome).1.length = kbuf.length
      ∧ (0 ≤ (ioevent_poll_kqueue ioevent kbuf koutcome).2 →
          (ioevent_poll_kqueue ioevent kbuf koutcome).2 ≤ (ioevent.size : Int)
          ∧ (ioevent_poll_kqueue ioevent kbuf koutcome).1.drop
              (ioevent_poll_kqueue ioevent kbuf koutcome).2.toNat
            = kbuf.drop (ioevent_poll_kqueue ioevent kbuf koutcome).2.toNat))
    ∧ ((ioevent_poll_port_fill retval errno got pbuf).1.length = pbuf.length
      ∧ (0 ≤ (ioevent_poll_port_fill retval errno got pbuf).2 →
          (ioevent_poll_port_fill retval errno got pbuf).2 ≤ (ioevent.size : Int)
          ∧ (ioevent_poll_port_fill retval errno got pbuf).1.drop
              (ioevent_poll_port_fill retval errno got pbuf).2.toNat
            = pbuf.drop (ioevent_poll_port_fill retval errno got pbuf).2.toNat)) := by
  refine ⟨?_, ?_, ?_⟩
  · match outcome with
    | .error err =>
        have hpoll : ioevent_poll_epoll ioevent (Except.error err)
            = ({ ioevent with events := some buf }, -1) := by
          unfold ioevent_poll_epoll
          rw [hb]
          rfl
        rw [hpoll]
        exact ⟨rfl, buf, rfl, rfl,
          fun hcon => absurd hcon (show ¬(0 : Int) ≤ -1 by decide)⟩
    | .ok pending =>
        have hpoll : ioevent_poll_epoll ioevent (Except.ok pending)
            = ({ ioevent with events := some ((pending.take ioevent.size)
                  ++ buf.drop (pending.take ioevent.size).length) },
               ((pending.take ioevent.size).length : Int)) := by
          unfold ioevent_poll_epoll
          rw [hb]
          rfl
        have hkle : (pending.take ioevent.size).length ≤ ioevent.size := by
          rw [List.length_take]
          omega
        rw [hpoll]
        refine ⟨rfl, _, rfl, ?_, fun _ => ⟨?_, ?_⟩⟩
        · rw [List.length_append, List.length_drop]
          omega
        · show ((pending.take ioevent.size).length : Int) ≤ (ioevent.size : Int)
          exact_mod_cast hkle
        · rw [Int.toNat_ofNat, List.drop_left]
  · match koutcome with
    | .error err =>
        exact ⟨rfl, fun hcon => absurd hcon (show ¬(0 : Int) ≤ -1 by decide)⟩
    | .ok pending =>
        have hkle : (pending.take ioevent.size).length ≤ ioevent.size := by
          rw [List.length_take]
          omega
        refine ⟨?_, fun _ => ⟨?_, ?_⟩⟩
        · show ((pending.take ioevent.size)
              ++ kbuf.drop (pending.take ioevent.size).length).length = kbuf.length
          rw [List.length_append, List.length_drop]
          omega
        · show ((pending.take ioevent.size).length : Int) ≤ (ioevent.size : Int)
          exact_mod_cast hkle
        · show ((pending.take ioevent.size)
              ++ kbuf.drop (pending.take ioevent.size).length).drop
                ((pending.take ioevent.size).length : Int).toNat
            = kbuf.drop ((pending.take ioevent.size).length : Int).toNat
          rw [Int.toNat_ofNat, List.drop_left]
  · constructor
    · show (got ++ pbuf.drop got.length).length = pbuf.length
      rw [List.length_append, List.length_drop]
      omega
    · intro hpos
      have hres : ioevent_poll_port retval errno got.length = (got.length : Int) := by
        unfold ioevent_poll_port
        by_cases h0 : retval = 0 <;>
          by_cases ht : errno = EINTR ∨ errno = EAGAIN ∨ errno = ETIME <;>
          by_cases hn : 0 < got.length <;>
          simp [h0, ht, hn] <;>
          first
          | omega
          | (exfalso
             revert hpos
             show ¬(0 ≤ ioevent_poll_port retval errno got.length)
             unfold ioevent_poll_port
             simp [h0, ht, hn])
      refine ⟨?_, ?_⟩
      · show ioevent_poll_port retval errno got.length ≤ (ioevent.size : Int)
        rw [hres]
        exact_mod_cast hgot
      · show (got ++ pbuf.drop got.length).drop
            (ioevent_poll_port retval errno got.length).toNat
          = pbuf.drop (ioevent_poll_port retval errno got.length).toNat
        rw [hres, Int.toNat_ofNat, List.drop_left]

/-- Witness for C7 at concrete inputs: capacity 2 on all three backends,
with three pending epoll events, one pending kqueue event and one
retrieved port event; every buffer keeps length 2. -/
theorem ioevent_poll_capacity_bound_check :
    ((ioevent_poll_kqueue ⟨2, 0, 1000, 3, some [⟨0, 0⟩, ⟨0, 0⟩]⟩
        [⟨0, 0, 0, 0, 0, 0⟩, ⟨0, 0, 0, 0, 0, 0⟩]
        (Except.ok [⟨3, -1, 0, 0, 0, 7⟩])).1.length
      = ([⟨0, 0, 0, 0, 0, 0⟩, ⟨0, 0, 0, 0, 0, 0⟩] : List Kevent).length)
    ∧ ((ioevent_poll_port_fill 0 0 [⟨1, 9⟩] [⟨0, 0⟩, ⟨0, 0⟩]).1.length
      = ([⟨0, 0⟩, ⟨0, 0⟩] : List PortEvent).length)
    ∧ ∃ buf2, (ioevent_poll_epoll ⟨2, 0, 1000, 3, some [⟨0, 0⟩, ⟨0, 0⟩]⟩
          (Except.ok [⟨1, 5⟩, ⟨1, 6⟩, ⟨1, 7⟩])).1.events = some buf2
        ∧ buf2.length = ([⟨0, 0⟩, ⟨0, 0⟩] : List EpollEvent).length
        ∧ (0 ≤ (ioevent_poll_epoll ⟨2, 0, 1000, 3, some [⟨0, 0⟩, ⟨0, 0⟩]⟩
              (Except.ok [⟨1, 5⟩, ⟨1, 6⟩, ⟨1, 7⟩])).2 →
            (ioevent_poll_epoll ⟨2, 0, 1000, 3, some [⟨0, 0⟩, ⟨0, 0⟩]⟩
              (Except.ok [⟨1, 5⟩, ⟨1, 6⟩, ⟨1, 7⟩])).2 ≤ ((2 : Nat) : Int)
            ∧ buf2.drop (ioevent_poll_epoll ⟨2, 0, 1000, 3, some [⟨0, 0⟩, ⟨0, 0⟩]⟩
                  (Except.ok [⟨1, 5⟩, ⟨1, 6⟩, ⟨1, 7⟩])).2.toNat
              = ([⟨0, 0⟩, ⟨0, 0⟩] : List EpollEvent).drop
                  (ioevent_poll_epoll ⟨2, 0, 1000, 3, some [⟨0, 0⟩, ⟨0, 0⟩]⟩
                    (Except.ok [⟨1, 5⟩, ⟨1, 6⟩, ⟨1, 7⟩])).2.toNat) :=
  ⟨(ioevent_poll_capacity_bound ⟨2, 0, 1000, 3, some [⟨0, 0⟩, ⟨0, 0⟩]⟩
      [⟨0, 0⟩, ⟨0, 0⟩] (Except.ok [⟨1, 5⟩, ⟨1, 6⟩, ⟨1, 7⟩])
      [⟨0, 0, 0, 0, 0, 0⟩, ⟨0, 0, 0, 0, 0, 0⟩] (Except.ok [⟨3, -1, 0, 0, 0, 7⟩])
      0 0 [⟨1, 9⟩] [⟨0, 0⟩, ⟨0, 0⟩] rfl rfl rfl (by decide) rfl).2.1.1,
    (ioevent_poll_capacity_bound ⟨2, 0, 1000, 3, some [⟨0, 0⟩, ⟨0, 0⟩]⟩
      [⟨0, 0⟩, ⟨0, 0⟩] (Except.ok [⟨1, 5⟩, ⟨1, 6⟩, ⟨1, 7⟩])
      [⟨0, 0, 0, 0, 0, 0⟩, ⟨0, 0, 0, 0, 0, 0⟩] (Except.ok [⟨3, -1, 0, 0, 0, 7⟩])
      0 0 [⟨1, 9⟩] [⟨0, 0⟩, ⟨0, 0⟩] rfl rfl rfl (by decide) rfl).2.2.1,
    (ioevent_poll_capacity_bound ⟨2, 0, 1000, 3, some [⟨0, 0⟩, ⟨0, 0⟩]⟩
      [⟨0, 0⟩, ⟨0, 0⟩] (Except.ok [⟨1, 5⟩, ⟨1, 6⟩, ⟨1, 7⟩])
      [⟨0, 0, 0, 0, 0, 0⟩, ⟨0, 0, 0, 0, 0, 0⟩] (Except.ok [⟨3, -1, 0, 0, 0, 7⟩])
      0 0 [⟨1, 9⟩] [⟨0, 0⟩, ⟨0, 0⟩] rfl rfl rfl (by decide) rfl).1.2⟩

/-- C5: on the kqueue build, attach submits exactly one change per
direction present in the mask — an EV_ADD entry carrying the fd and the
user data — and no change at all (in particular no EV_DELETE entry) for a
direction not present.  The extra_events hypothesis records that the
poller's shared flags do not themselves carry the EV_DELETE action bit. -/
theorem ioevent_attach_kqueue_per_direction (kernelErr : Kevent → Option Nat)
    (ioevent : IOEventPoller) (fd : Int) (e : Nat) (data : Nat)
    (hx : ioevent.extra_events &&& EV_DELETE = 0) :
    ((ioevent_attach_kqueue kernelErr ioevent fd e data).1.countP
        (fun c => c.filter == EVFILT_READ)
      = if e &&& IOEVENT_READ ≠ 0 then 1 else 0)
    ∧ ((ioevent_attach_kqueue kernelErr ioevent fd e data).1.countP
        (fun c => c.filter == EVFILT_WRITE)
      = if e &&& IOEVENT_WRITE ≠ 0 then 1 else 0)
    ∧ ∀ c ∈ (ioevent_attach_kqueue kernelErr ioevent fd e data).1,
        (c.filter = EVFILT_READ ∨ c.filter = EVFILT_WRITE)
        ∧ c.flags &&& EV_ADD ≠ 0 ∧ c.flags &&& EV_DELETE = 0
        ∧ c.ident = fd ∧ c.udata = data := by
  have hx2 : ioevent.extra_events &&& 2 = 0 := hx
  by_cases h1 : e &&& IOEVENT_READ ≠ 0 <;> by_cases h2 : e &&& IOEVENT_WRITE ≠ 0 <;>
    simp [ioevent_attach_kqueue, h1, h2, List.countP_cons, EVFILT_READ,
      EVFILT_WRITE, or_one_and_one, or_one_and_two _ hx2, EV_ADD, EV_DELETE]

/-- Witness for C5 at a concrete input: extra flags 32 (no EV_DELETE bit),
mask requesting only the read direction. -/
theorem ioevent_attach_kqueue_per_direction_check :
    ((ioevent_attach_kqueue (fun _ => none) ⟨64, 32, 1000, 3, none⟩ 7
        IOEVENT_READ 42).1.countP (fun c => c.filter == EVFILT_READ)
      = if IOEVENT_READ &&& IOEVENT_READ ≠ 0 then 1 else 0)
    ∧ ((ioevent_attach_kqueue (fun _ => none) ⟨64, 32, 1000, 3, none⟩ 7
        IOEVENT_READ 42).1.countP (fun c => c.filter == EVFILT_WRITE)
      = if IOEVENT_READ &&& IOEVENT_WRITE ≠ 0 then 1 else 0)
    ∧ ∀ c ∈ (ioevent_attach_kqueue (fun _ => none) ⟨64, 32, 1000, 3, none⟩ 7
        IOEVENT_READ 42).1,
        (c.filter = EVFILT_READ ∨ c.filter = EVFILT_WRITE)
        ∧ c.flags &&& EV_ADD ≠ 0 ∧ c.flags &&& EV_DELETE = 0
        ∧ c.ident = 7 ∧ c.udata = 42 :=
  ioevent_attach_kqueue_per_direction (fun _ => none) ⟨64, 32, 1000, 3, none⟩
    7 IOEVENT_READ 42 (by decide)

/-- C4: modify on the kqueue build always submits exactly two changes in
one list — for each direction an EV_ADD entry when that direction is in
the new mask and an explicit EV_DELETE entry when it is not — while on the
epoll build modify replaces the fd's stored record with the new mask
(extra flags merged), leaving every other fd's record unchanged. -/
theorem ioevent_modify_directions_and_replace (st : List (Int × EpollEvent))
    (kernelErr : Kevent → Option Nat) (ioevent : IOEventPoller) (fd : Int)
    (e : Nat) (data : Nat) (hfd : (st.lookup fd).isSome)
    (hx : ioevent.extra_events &&& EV_DELETE = 0) :
    (ioevent_modify_kqueue kernelErr ioevent fd e data).1.length = 2
    ∧ ((ioevent_modify_kqueue kernelErr ioevent fd e data).1.countP
        (fun c => c.filter == EVFILT_READ) = 1)
    ∧ ((ioevent_modify_kqueue kernelErr ioevent fd e data).1.countP
        (fun c => c.filter == EVFILT_WRITE) = 1)
    ∧ (∀ c ∈ (ioevent_modify_kqueue kernelErr ioevent fd e data).1,
        (c.filter = EVFILT_READ →
          if e &&& IOEVENT_READ ≠ 0 then
            c.flags &&& EV_ADD ≠ 0 ∧ c.flags &&& EV_DELETE = 0
          else c.flags = EV_DELETE)
        ∧ (c.filter = EVFILT_WRITE →
          if e &&& IOEVENT_WRITE ≠ 0 then
            c.flags &&& EV_ADD ≠ 0 ∧ c.flags &&& EV_DELETE = 0
          else c.flags = EV_DELETE))
    ∧ ((ioevent_modify_epoll st ioevent fd e data).2.1.lookup fd
        = some ⟨e ||| ioevent.extra_events, data⟩)
    ∧ (∀ g : Int, g ≠ fd →
        (ioevent_modify_epoll st ioevent fd e data).2.1.lookup g = st.lookup g)
    ∧ (ioevent_modify_epoll st ioevent fd e data).2.2 = 0 := by
  refine ⟨?_, ?_, ?_, ?_, ?_, ?_, ?_⟩
  · by_cases h1 : e &&& IOEVENT_READ ≠ 0 <;> by_cases h2 : e &&& IOEVENT_WRITE ≠ 0 <;>
      simp [ioevent_modify_kqueue, h1, h2]
  · by_cases h1 : e &&& IOEVENT_READ ≠ 0 <;> by_cases h2 : e &&& IOEVENT_WRITE ≠ 0 <;>
      simp [ioevent_modify_kqueue, h1, h2, List.countP_cons, EVFILT_READ,
        EVFILT_WRITE]
  · by_cases h1 : e &&& IOEVENT_READ ≠ 0 <;> by_cases h2 : e &&& IOEVENT_WRITE ≠ 0 <;>
      simp [ioevent_modify_kqueue, h1, h2, List.countP_cons, EVFILT_READ,
        EVFILT_WRITE]
  · have hx2 : ioevent.extra_events &&& 2 = 0 := hx
    by_cases h1 : e &&& IOEVENT_READ ≠ 0 <;> by_cases h2 : e &&& IOEVENT_WRITE ≠ 0 <;>
      simp [ioevent_modify_kqueue, h1, h2, EVFILT_READ, EVFILT_WRITE,
        or_one_and_one, or_one_and_two _ hx2, EV_ADD, EV_DELETE]
  · unfold ioevent_modify_epoll epoll_ctl
    simp only [hfd, if_pos]
    exact lookup_map_replace_self st fd _ hfd
  · intro g hg
    unfold ioevent_modify_epoll epoll_ctl
    simp only [hfd, if_pos]
    exact lookup_map_replace_ne st fd g _ hg
  · unfold ioevent_modify_epoll epoll_ctl
    simp [hfd]

/-- Witness for C4 at a concrete input: fd 7 registered with an old
record, new mask requesting only the read direction, extra flags 32. -/
theorem ioevent_modify_directions_and_replace_check :
    ((ioevent_modify_kqueue (fun _ => none) ⟨64, 32, 1000, 3, none⟩ 7
        IOEVENT_READ 42).1.length = 2)
    ∧ (((ioevent_modify_kqueue (fun _ => none) ⟨64, 32, 1000, 3, none⟩ 7
        IOEVENT_READ 42).1.countP (fun c => c.filter == EVFILT_READ)) = 1)
    ∧ (((ioevent_modify_kqueue (fun _ => none) ⟨64, 32, 1000, 3, none⟩ 7
        IOEVENT_READ 42).1.countP (fun c => c.filter == EVFILT_WRITE)) = 1)
    ∧ (∀ c ∈ (ioevent_modify_kqueue (fun _ => none) ⟨64, 32, 1000, 3, none⟩ 7
        IOEVENT_READ 42).1,
        (c.filter = EVFILT_READ →
          if IOEVENT_READ &&& IOEVENT_READ ≠ 0 then
            c.flags &&& EV_ADD ≠ 0 ∧ c.flags &&& EV_DELETE = 0
          else c.flags = EV_DELETE)
        ∧ (c.filter = EVFILT_WRITE →
          if IOEVENT_READ &&& IOEVENT_WRITE ≠ 0 then
            c.flags &&& EV_ADD ≠ 0 ∧ c.flags &&& EV_DELETE = 0
          else c.flags = EV_DELETE))
    ∧ ((ioevent_modify_epoll [(7, ⟨1, 9⟩)] ⟨64, 32, 1000, 3, none⟩ 7
        IOEVENT_READ 42).2.1.lookup 7 = some ⟨IOEVENT_READ ||| 32, 42⟩)
    ∧ (∀ g : Int, g ≠ 7 →
        (ioevent_modify_epoll [(7, ⟨1, 9⟩)] ⟨64, 32, 1000, 3, none⟩ 7
          IOEVENT_READ 42).2.1.lookup g = ([(7, ⟨1, 9⟩)] : List (Int × EpollEvent)).lookup g)
    ∧ (ioevent_modify_epoll [(7, ⟨1, 9⟩)] ⟨64, 32, 1000, 3, none⟩ 7
        IOEVENT_READ 42).2.2 = 0 :=
  ioevent_modify_directions_and_replace [(7, ⟨1, 9⟩)] (fun _ => none)
    ⟨64, 32, 1000, 3, none⟩ 7 IOEVENT_READ 42 (by decide) (by decide)

/-- C8: every submission merges the poller's stored extra_events into the
mask by bitwise OR — the epoll record built by attach and by modify is
always the caller mask OR extra_events, and every EV_ADD change built by
the kqueue attach and modify carries flags EV_ADD OR extra_events — for
every poller, mask and call alike. -/
theorem extra_events_merged_every_call (st : List (Int × EpollEvent))
    (kernelErr : Kevent → Option Nat) (ioevent : IOEventPoller) (fd : Int)
    (e : Nat) (data : Nat) :
    (ioevent_attach_epoll st ioevent fd e data).1.events
      = e ||| ioevent.extra_events
    ∧ (ioevent_modify_epoll st ioevent fd e data).1.events
      = e ||| ioevent.extra_events
    ∧ (∀ c ∈ (ioevent_attach_kqueue kernelErr ioevent fd e data).1,
        c.flags = EV_ADD ||| ioevent.extra_events)
    ∧ (∀ c ∈ (ioevent_modify_kqueue kernelErr ioevent fd e data).1,
        c.flags &&& EV_ADD ≠ 0 → c.flags = EV_ADD ||| ioevent.extra_events) := by
  refine ⟨rfl, rfl, ?_, ?_⟩
  · by_cases h1 : e &&& IOEVENT_READ ≠ 0 <;> by_cases h2 : e &&& IOEVENT_WRITE ≠ 0 <;>
      simp [ioevent_attach_kqueue, h1, h2]
  · by_cases h1 : e &&& IOEVENT_READ ≠ 0 <;> by_cases h2 : e &&& IOEVENT_WRITE ≠ 0 <;>
      simp [ioevent_modify_kqueue, h1, h2, EV_ADD, EV_DELETE]

/-- Witness for C8 at a concrete input. -/
theorem extra_events_merged_every_call_check :
    (ioevent_attach_epoll [] ⟨64, 32, 1000, 3, none⟩ 7 IOEVENT_READ 42).1.events
      = IOEVENT_READ ||| 32
    ∧ (ioevent_modify_epoll [] ⟨64, 32, 1000, 3, none⟩ 7 IOEVENT_READ 42).1.events
      = IOEVENT_READ ||| 32
    ∧ (∀ c ∈ (ioevent_attach_kqueue (fun _ => none) ⟨64, 32, 1000, 3, none⟩ 7
        IOEVENT_READ 42).1, c.flags = EV_ADD ||| 32)
    ∧ (∀ c ∈ (ioevent_modify_kqueue (fun _ => none) ⟨64, 32, 1000, 3, none⟩ 7
        IOEVENT_READ 42).1, c.flags &&& EV_ADD ≠ 0 → c.flags = EV_ADD ||| 32) :=
  extra_events_merged_every_call [] (fun _ => none) ⟨64, 32, 1000, 3, none⟩
    7 IOEVENT_READ 42

end IOEvent
